import Mathlib

/-!
Verification of the `architect` notification relay.

The repository has two Python files:

* `architect_notify.py` — `notify_architect` (deliver a state over a Unix
  socket configured by environment variables), `state_from_notification`
  (classify a raw payload into one of three canonical states), and a
  `__main__` adapter;
* `architect_hook_gemini.py` — a wrapper that consumes stdin, delegates to
  `architect_notify.py` as a subprocess, and always answers
  `{"decision": "allow"}` with exit code 0.

This file is a shallow embedding of that code.  Python values that can
appear as JSON payload fields are modelled by `PyValue` (JSON fractional
numbers / floats are outside the model).  `json.loads` is modelled by an
abstract parse function `String → Option PyValue` (`Option.none` models a
raised exception), so theorems about the classifier hold for every parser
behaviour.  Socket I/O is modelled by a trace of attempted operations
(`SockOp`) together with the exception, if any, escaping the `try` block.
Python's `str.lower` is modelled on ASCII letters only, and `str.strip`
on ASCII whitespace, matching their behaviour on all inputs the claims
exercise.
-/

/-- Python values reachable from a decoded JSON payload (no floats). -/
inductive PyValue where
  | none : PyValue
  | bool : Bool → PyValue
  | int : Int → PyValue
  | str : String → PyValue
  | list : List PyValue → PyValue
  | dict : List (String × PyValue) → PyValue

/-- An abstract model of `json.loads`: `Option.none` models a raised
exception (or, composed with the `isinstance(payload, dict)` test in the
code, any unusable result). -/
def ParseFun : Type := String → Option PyValue

/-- ASCII whitespace recognised by the model of Python's `str.strip()`. -/
def pyIsSpace (c : Char) : Bool :=
  c = ' ' || c = '\t' || c = '\n' || c = '\r' || c = '\x0b' || c = '\x0c'

/-- Model of Python `str.strip()` (ASCII whitespace). -/
def pyStrip (s : String) : String :=
  String.mk (((s.toList.dropWhile pyIsSpace).reverse.dropWhile pyIsSpace).reverse)

/-- Model of Python `str.lower()` (ASCII letters). -/
def pyLower (s : String) : String :=
  String.mk (s.toList.map Char.toLower)

/-- `leadMatch n h` is true when `n` is a prefix of `h` (char lists). -/
def leadMatch : List Char → List Char → Bool
  | [], _ => true
  | _ :: _, [] => false
  | a :: as, b :: bs => a = b && leadMatch as bs

/-- `hasSub n h`: Python's substring test `n in h`, on char lists. -/
def hasSub (needle : List Char) : List Char → Bool
  | [] => needle.isEmpty
  | c :: rest => leadMatch needle (c :: rest) || hasSub needle rest

/-- Python `needle in hay` for strings. -/
def strHasSub (needle hay : String) : Bool :=
  hasSub needle.toList hay.toList

/-- Python `hay.endswith(post)`. -/
def strEndsWithSuffix (hay post : String) : Bool :=
  leadMatch post.toList.reverse hay.toList.reverse

/-- Python truthiness `bool(v)` for modelled values. -/
def pyTruthy : PyValue → Bool
  | .none => false
  | .bool b => b
  | .int n => !(n = 0)
  | .str s => !(s = "")
  | .list xs => !xs.isEmpty
  | .dict kvs => !kvs.isEmpty

/-- `payload.get(k)`: first binding wins in the modelled dict. -/
def pyGet (kvs : List (String × PyValue)) (k : String) : Option PyValue :=
  (kvs.find? (fun p => p.1 = k)).map (fun p => p.2)

/-- The single-quote character, built numerically to keep source plain. -/
def sqChar : Char := Char.ofNat 39

/-- The double-quote character. -/
def dqChar : Char := Char.ofNat 34

/-- Lower-case hexadecimal digit characters. -/
def hexDigitChar : Nat → Char
  | 0 => '0' | 1 => '1' | 2 => '2' | 3 => '3' | 4 => '4'
  | 5 => '5' | 6 => '6' | 7 => '7' | 8 => '8' | 9 => '9'
  | 10 => 'a' | 11 => 'b' | 12 => 'c' | 13 => 'd' | 14 => 'e' | 15 => 'f'
  | _ => '0'

/-- Two-digit lower-case hex rendering (used by `repr` escapes). -/
def hex2 (n : Nat) : String :=
  String.mk [hexDigitChar (n / 16 % 16), hexDigitChar (n % 16)]

/-- Four-digit lower-case hex rendering (used by JSON escapes). -/
def hex4 (n : Nat) : String :=
  String.mk [hexDigitChar (n / 4096 % 16), hexDigitChar (n / 256 % 16),
             hexDigitChar (n / 16 % 16), hexDigitChar (n % 16)]

/-- One character of Python `repr` of a string, given the chosen quote
character `q`: escape backslash, the quote, common controls; other
controls as a hex escape; printable characters kept. -/
def pyReprEscChar (q c : Char) : String :=
  if c = '\\' then "\\\\"
  else if c = q then String.mk ['\\', q]
  else if c = '\n' then "\\n"
  else if c = '\r' then "\\r"
  else if c = '\t' then "\\t"
  else if c.toNat < 32 || c.toNat = 127 then "\\x" ++ hex2 c.toNat
  else String.singleton c

/-- Model of Python `repr` on strings: single quotes, or double quotes
when the string contains a single quote but no double quote.
(Printability of non-ASCII characters is approximated: they are kept.) -/
def pyReprStr (s : String) : String :=
  let q := if s.toList.contains sqChar && !(s.toList.contains dqChar)
           then dqChar else sqChar
  String.singleton q ++ String.join (s.toList.map (pyReprEscChar q))
    ++ String.singleton q

mutual

/-- Model of Python `repr` on modelled values. -/
def pyRepr : PyValue → String
  | .none => "None"
  | .bool true => "True"
  | .bool false => "False"
  | .int n => toString n
  | .str s => pyReprStr s
  | .list xs => "[" ++ pyReprListItems xs ++ "]"
  | .dict kvs => "\x7b" ++ pyReprDictItems kvs ++ "\x7d"

/-- Comma-separated `repr` of list elements. -/
def pyReprListItems : List PyValue → String
  | [] => ""
  | [v] => pyRepr v
  | v :: w :: rest => pyRepr v ++ ", " ++ pyReprListItems (w :: rest)

/-- Comma-separated `repr` of dict entries. -/
def pyReprDictItems : List (String × PyValue) → String
  | [] => ""
  | [(k, v)] => pyReprStr k ++ ": " ++ pyRepr v
  | (k, v) :: e :: rest =>
      pyReprStr k ++ ": " ++ pyRepr v ++ ", " ++ pyReprDictItems (e :: rest)

end

/-- Model of Python `str(v)`: identity on strings, `repr` otherwise
(for the value shapes in the model this agrees with CPython). -/
def pyStr : PyValue → String
  | .str s => s
  | .none => pyRepr .none
  | .bool b => pyRepr (.bool b)
  | .int n => pyRepr (.int n)
  | .list xs => pyRepr (.list xs)
  | .dict kvs => pyRepr (.dict kvs)

/-- `VALID_STATES` from `architect_notify.py` (the set is modelled as a
list; only membership is ever used). -/
def VALID_STATES : List String := ["start", "awaiting_approval", "done"]

/-- The guarded rules applied to the computed `ntype` string in the
`type`-field block of `state_from_notification`: the `if ntype:` guard
followed by the substring rules, in source order. -/
def typeStringRules (ntype : String) : Option String :=
  if !(ntype = "") then
    if VALID_STATES.contains ntype then some ntype
    else if strHasSub "approval" ntype || strHasSub "permission" ntype
            || (strHasSub "input" ntype && strHasSub "await" ntype) then
      some "awaiting_approval"
    else if strHasSub "complete" ntype || strEndsWithSuffix ntype "-done" then
      some "done"
    else if strHasSub "start" ntype || strHasSub "begin" ntype then
      some "start"
    else Option.none
  else Option.none

/-- The `type`-field block of `state_from_notification`:
`ntype = str(payload.get("type") or "").lower()` followed by the guarded
substring rules. -/
def stateFromType (kvs : List (String × PyValue)) : Option String :=
  let tv : PyValue :=
    match pyGet kvs "type" with
    | Option.none => .str ""
    | Option.some v => if pyTruthy v then v else .str ""
  typeStringRules (pyLower (pyStr tv))

/-- The `status`-field block of `state_from_notification`; falls through
to `stateFromType` exactly where the source falls through to the
`ntype` lines. -/
def stateFromStatus (kvs : List (String × PyValue)) : Option String :=
  match pyGet kvs "status" with
  | Option.some (.str st) =>
    let lowered := pyLower st
    if VALID_STATES.contains lowered then some lowered
    else if ["complete", "completed", "finished", "success"].contains lowered then
      some "done"
    else if strHasSub "approval" lowered || strHasSub "permission" lowered then
      some "awaiting_approval"
    else stateFromType kvs
  | _ => stateFromType kvs

/-- The dict portion of `state_from_notification`, starting at
`state_field = payload.get("state")`. -/
def stateFromDict (kvs : List (String × PyValue)) : Option String :=
  match pyGet kvs "state" with
  | Option.some (.str s) =>
      if VALID_STATES.contains s then some s else stateFromStatus kvs
  | _ => stateFromStatus kvs

/-- Embedding of `state_from_notification(raw)` with `json.loads`
abstracted as `J` (`J r = Option.none` models the `except` branch). -/
def state_from_notification (J : ParseFun) (raw : String) : Option String :=
  let raw := pyStrip raw
  if raw = "" then Option.none
  else if VALID_STATES.contains raw then some raw
  else
    match J raw with
    | Option.none => Option.none
    | Option.some payload =>
      match payload with
      | .dict kvs => stateFromDict kvs
      | _ => Option.none

/-- Base-10 digit run of Python `int(str)`: a leading digit, then digits
with single underscores allowed between digits. -/
def pyDigitsAux (acc : Nat) : List Char → Option Nat
  | [] => some acc
  | '_' :: c :: rest =>
      if c.isDigit then pyDigitsAux (acc * 10 + (c.toNat - 48)) rest
      else Option.none
  | ['_'] => Option.none
  | c :: rest =>
      if c.isDigit then pyDigitsAux (acc * 10 + (c.toNat - 48)) rest
      else Option.none

/-- Digit run that must start with a digit (no leading underscore). -/
def pyDigitsStart : List Char → Option Nat
  | c :: rest => if c.isDigit then pyDigitsAux (c.toNat - 48) rest else Option.none
  | [] => Option.none

/-- Model of Python `int(s)` on strings: strip whitespace, optional sign,
ASCII digits with underscore separators; `Option.none` models the raised
`ValueError`. (Unicode digits are outside the model.) -/
def pyInt (s : String) : Option Int :=
  match (pyStrip s).toList with
  | '+' :: rest => (pyDigitsStart rest).map Int.ofNat
  | '-' :: rest => (pyDigitsStart rest).map (fun n => -(n : Int))
  | l => (pyDigitsStart l).map Int.ofNat

/-- Decimal digits of a natural number, most significant first. -/
def natDecDigits (n : Nat) : List Char :=
  if _h : n < 10 then [hexDigitChar n]
  else natDecDigits (n / 10) ++ [hexDigitChar (n % 10)]
decreasing_by exact Nat.div_lt_self (by omega) (by omega)

/-- Decimal rendering of an integer, as Python `str(int)` produces it. -/
def intToDecimal : Int → String
  | .ofNat n => String.mk (natDecDigits n)
  | .negSucc m => "-" ++ String.mk (natDecDigits (m + 1))

/-- `true` exactly on string values (`isinstance(v, str)`). -/
def PyValue.isStr : PyValue → Bool
  | .str _ => true
  | _ => false

/-- `true` exactly on dict values (`isinstance(v, dict)`). -/
def PyValue.isDict : PyValue → Bool
  | .dict _ => true
  | _ => false

/-- The `state`-field rule of the classifier fires: the payload's
`state` field is a string equal to a canonical state name. -/
def stateRuleHit (kvs : List (String × PyValue)) : Bool :=
  match pyGet kvs "state" with
  | Option.some (.str s) => VALID_STATES.contains s
  | _ => false

/-- Some `status`-field rule of the classifier fires: the payload's
`status` field is a string whose lowering is a canonical name, one of
the four done-synonyms, or contains "approval" or "permission". -/
def statusRuleHit (kvs : List (String × PyValue)) : Bool :=
  match pyGet kvs "status" with
  | Option.some (.str st) =>
    VALID_STATES.contains (pyLower st)
      || ["complete", "completed", "finished", "success"].contains (pyLower st)
      || strHasSub "approval" (pyLower st) || strHasSub "permission" (pyLower st)
  | _ => false

/-- One character of the JSON string escape performed by `json.dumps`
with its default `ensure_ascii=True`: printable ASCII kept, short
escapes for the usual controls, `\uXXXX` otherwise (surrogate pairs
above the BMP). -/
def jsonEscChar (c : Char) : String :=
  if c = dqChar then String.mk ['\\', dqChar]
  else if c = '\\' then "\\\\"
  else if c = '\n' then "\\n"
  else if c = '\r' then "\\r"
  else if c = '\t' then "\\t"
  else if c = Char.ofNat 8 then "\\b"
  else if c = Char.ofNat 12 then "\\f"
  else if 32 ≤ c.toNat && c.toNat ≤ 126 then String.singleton c
  else if c.toNat ≤ 65535 then "\\u" ++ hex4 c.toNat
  else "\\u" ++ hex4 (55296 + (c.toNat - 65536) / 1024)
       ++ "\\u" ++ hex4 (56320 + (c.toNat - 65536) % 1024)

/-- Concatenated JSON escapes of a character list. -/
def jsonEscList : List Char → String
  | [] => ""
  | c :: rest => jsonEscChar c ++ jsonEscList rest

/-- `json.dumps` rendering of a string (quotes included). -/
def jsonEscapeString (s : String) : String :=
  String.singleton dqChar ++ jsonEscList s.toList ++ String.singleton dqChar

/-- `json.dumps({"session": n, "state": st})` with CPython's default
separators: keys in insertion order, `, ` and `: `. -/
def dumpsSessionState (n : Int) (st : String) : String :=
  "\x7b" ++ jsonEscapeString "session" ++ ": " ++ intToDecimal n
    ++ ", " ++ jsonEscapeString "state" ++ ": " ++ jsonEscapeString st ++ "\x7d"

/-- `json.dumps({"decision": "allow"})`, the Gemini adapter's response. -/
def dumpsDecisionAllow : String :=
  "\x7b" ++ jsonEscapeString "decision" ++ ": " ++ jsonEscapeString "allow" ++ "\x7d"

/-- The socket operations `notify_architect` may attempt, recorded in
order.  `send` carries the string whose UTF-8 encoding `sendall` writes.
`settimeout` is in the vocabulary so that its absence from every trace
is a statement about the code (the source never calls it). -/
inductive SockOp where
  | create : SockOp
  | settimeout : Nat → SockOp
  | connect : String → SockOp
  | send : String → SockOp
  | close : SockOp
deriving DecidableEq

/-- Exceptions distinguished by the model. -/
inductive PyExn where
  | valueError : PyExn
  | fileNotFound : PyExn
  | connRefused : PyExn
  | osError : PyExn

/-- Outcome of the socket endpoint for one invocation: connect succeeds
and the write succeeds, the endpoint is missing, the connection is
refused, or the write fails after a successful connect. -/
inductive SockBehavior where
  | ok : SockBehavior
  | noEndpoint : SockBehavior
  | refused : SockBehavior
  | sendFail : SockBehavior

/-- Result of running a code block: the socket operations attempted, and
the exception escaping the block, if any. -/
structure RunRes where
  ops : List SockOp
  exn : Option PyExn

/-- The environment configuration read by `notify_architect`:
`os.environ.get` of `ARCHITECT_SESSION_ID` and `ARCHITECT_NOTIFY_SOCK`. -/
structure NotifyEnv where
  sessionId : Option String
  sockPath : Option String

/-- The `try` block of `notify_architect`: `int(session_id)` may raise
`ValueError`; otherwise the message is built and the socket is created,
connected, written and closed, stopping at the operation the endpoint
makes fail (there is no `finally`, so `close` is skipped on failure). -/
def notifyBody (sid sp : String) (b : SockBehavior) (state : String) : RunRes :=
  match pyInt sid with
  | Option.none => ⟨[], some PyExn.valueError⟩
  | Option.some n =>
    let message := dumpsSessionState n state ++ "\n"
    match b with
    | .ok => ⟨[.create, .connect sp, .send message, .close], Option.none⟩
    | .noEndpoint => ⟨[.create, .connect sp], some PyExn.fileNotFound⟩
    | .refused => ⟨[.create, .connect sp], some PyExn.connRefused⟩
    | .sendFail => ⟨[.create, .connect sp, .send message], some PyExn.osError⟩

/-- Embedding of `notify_architect(state)`: return silently when either
environment variable is unset or empty, otherwise run the body under
`try ... except Exception: pass`, which discards any exception. -/
def notify_architect (env : NotifyEnv) (b : SockBehavior) (state : String) : RunRes :=
  match env.sessionId, env.sockPath with
  | some sid, some sp =>
    if sid = "" || sp = "" then ⟨[], Option.none⟩
    else ⟨(notifyBody sid sp b state).ops, Option.none⟩
  | _, _ => ⟨[], Option.none⟩

/-- `sys.argv[1] if len(sys.argv) >= 2 else sys.stdin.read()`:
`args` models `sys.argv[1:]`. -/
def selectedRawInput (args : List String) (stdin : String) : String :=
  match args with
  | a :: _ => a
  | [] => stdin

/-- Result of one run of the `__main__` block of `architect_notify.py`. -/
structure MainRes where
  exitCode : Nat
  usagePrinted : Bool
  warned : Bool
  trace : List SockOp

/-- Embedding of the `__main__` block of `architect_notify.py`.
`args` models `sys.argv[1:]` and `stdin` the content of standard input;
`stderrTty` models `sys.stderr.isatty()` (the unmapped warning is only
printed on a terminal). -/
def archNotifyMain (J : ParseFun) (args : List String) (stdin : String)
    (env : NotifyEnv) (b : SockBehavior) (stderrTty : Bool) : MainRes :=
  let rawArg := selectedRawInput args stdin
  if pyStrip rawArg = "" then ⟨1, true, false, []⟩
  else
    match state_from_notification J rawArg with
    | Option.none => ⟨0, false, stderrTty, []⟩
    | Option.some st => ⟨0, false, false, (notify_architect env b st).ops⟩

/-- Outcome of the delegated `subprocess.run` in the Gemini adapter:
it completes with some exit code (`check=False`, so no exception), or
the call itself raises. -/
inductive SubOutcome where
  | completes : Nat → SubOutcome
  | raises : SubOutcome

/-- Result of one run of `architect_hook_gemini.py`'s `main`. -/
structure GeminiRes where
  stdout : String
  exitCode : Nat
  subprocessRan : Bool

/-- Embedding of `main()` of `architect_hook_gemini.py`: stdin is read
and its JSON parse errors ignored; with no argument it answers at once;
otherwise the notifier subprocess runs with its outcome swallowed
(`check=False`, output captured, and the top-level `except` catches a
raising call); every path prints `json.dumps({"decision": "allow"})`
and a newline and returns 0. -/
def gemini_main (args : List String) (_stdin : String) (sub : SubOutcome) : GeminiRes :=
  match args with
  | [] => ⟨dumpsDecisionAllow ++ "\n", 0, false⟩
  | _ :: _ =>
    match sub with
    | .completes _ => ⟨dumpsDecisionAllow ++ "\n", 0, true⟩
    | .raises => ⟨dumpsDecisionAllow ++ "\n", 0, true⟩

/-- `true` on the `send` operations of a trace. -/
def isSend : SockOp → Bool
  | .send _ => true
  | _ => false

/-- `true` on the `settimeout` operations of a trace. -/
def isSettimeout : SockOp → Bool
  | .settimeout _ => true
  | _ => false

/-! ## Helper lemmas -/

theorem hexDigitChar_ne_nl (n : Nat) : ¬ hexDigitChar n = '\n' := by
  unfold hexDigitChar
  split <;> decide

theorem nl_not_mem_natDecDigits (n : Nat) : '\n' ∉ natDecDigits n := by
  induction n using Nat.strong_induction_on with
  | _ n ih =>
    rw [natDecDigits]
    split
    · intro hmem
      rw [List.mem_singleton] at hmem
      exact hexDigitChar_ne_nl _ hmem.symm
    · next hlt =>
      intro hmem
      rcases List.mem_append.mp hmem with h | h
      · exact ih (n / 10) (Nat.div_lt_self (by omega) (by omega)) h
      · rw [List.mem_singleton] at h
        exact hexDigitChar_ne_nl _ h.symm

theorem nl_not_mem_hex4 (k : Nat) : '\n' ∉ (hex4 k).data := by
  intro h
  simp only [hex4, List.mem_cons, List.not_mem_nil, or_false] at h
  rcases h with h | h | h | h <;> exact hexDigitChar_ne_nl _ h.symm

theorem nl_not_mem_jsonEscChar (c : Char) : '\n' ∉ (jsonEscChar c).data := by
  unfold jsonEscChar
  split_ifs with h1 h2 h3 h4 h5 h6 h7 h8 h9
  · decide
  · decide
  · decide
  · decide
  · decide
  · decide
  · decide
  · intro hm
    have hm2 : '\n' = c := by simpa [String.singleton] using hm
    rw [← hm2] at h8
    exact absurd h8 (by decide)
  · simp only [String.data_append, List.mem_append]
    rintro (h | h)
    · exact (by decide : '\n' ∉ ("\\u" : String).data) h
    · exact nl_not_mem_hex4 _ h
  · simp only [String.data_append, List.mem_append]
    rintro (((h | h) | h) | h)
    · exact (by decide : '\n' ∉ ("\\u" : String).data) h
    · exact nl_not_mem_hex4 _ h
    · exact (by decide : '\n' ∉ ("\\u" : String).data) h
    · exact nl_not_mem_hex4 _ h

theorem nl_not_mem_jsonEscList (l : List Char) : '\n' ∉ (jsonEscList l).data := by
  induction l with
  | nil => decide
  | cons c rest ih =>
    simp only [jsonEscList, String.data_append, List.mem_append]
    rintro (h | h)
    · exact nl_not_mem_jsonEscChar c h
    · exact ih h

theorem nl_not_mem_jsonEscapeString (s : String) : '\n' ∉ (jsonEscapeString s).data := by
  simp only [jsonEscapeString, String.data_append, List.mem_append]
  rintro ((h | h) | h)
  · exact (by decide : '\n' ∉ (String.singleton dqChar).data) h
  · exact nl_not_mem_jsonEscList _ h
  · exact (by decide : '\n' ∉ (String.singleton dqChar).data) h

theorem nl_not_mem_intToDecimal (n : Int) : '\n' ∉ (intToDecimal n).data := by
  cases n with
  | ofNat m => exact nl_not_mem_natDecDigits m
  | negSucc m =>
    simp only [intToDecimal, String.data_append, List.mem_append]
    rintro (h | h)
    · exact (by decide : '\n' ∉ ("-" : String).data) h
    · exact nl_not_mem_natDecDigits _ h

theorem nl_not_mem_dumps (n : Int) (st : String) :
    '\n' ∉ (dumpsSessionState n st).data := by
  intro hmem
  simp only [dumpsSessionState, String.data_append, List.mem_append] at hmem
  rcases hmem with ((((((((h | h) | h) | h) | h) | h) | h) | h) | h) <;>
    first
      | exact nl_not_mem_jsonEscapeString _ h
      | exact nl_not_mem_intToDecimal _ h
      | (revert h ; decide)

theorem count_nl_message (n : Int) (st : String) :
    (dumpsSessionState n st ++ "\n").data.count '\n' = 1 := by
  rw [String.data_append, List.count_append,
      List.count_eq_zero.mpr (nl_not_mem_dumps n st)]
  decide

theorem pyInt_empty : pyInt "" = Option.none := rfl

theorem notify_exn_none (env : NotifyEnv) (b : SockBehavior) (state : String) :
    (notify_architect env b state).exn = Option.none := by
  rcases env with ⟨_ | sid, _ | sp⟩ <;> simp only [notify_architect]
  split
  · rfl
  · rfl

theorem notify_no_settimeout (env : NotifyEnv) (b : SockBehavior) (state : String) :
    (notify_architect env b state).ops.filter isSettimeout = [] := by
  rcases env with ⟨_ | sid, _ | sp⟩ <;> simp only [notify_architect]
  · rfl
  · rfl
  · rfl
  · split
    · rfl
    · unfold notifyBody
      rcases hp : pyInt sid with _ | k
      · simp [hp]
      · simp only [hp]
        cases b <;> rfl

/-! ## Claims about the notifier (`notify_architect`) and the adapters -/

/-- C1: for every state string, every environment (any values of the two
variables, including a non-integer session id) and every socket outcome
(endpoint missing, connection refused, write error), `notify_architect`
returns normally: no exception escapes to its caller. -/
theorem c1_notify_architect_never_raises
    (env : NotifyEnv) (b : SockBehavior) (state : String) :
    (notify_architect env b state).exn = Option.none :=
  notify_exn_none env b state

/-- C3: if either environment variable is unset or empty,
`notify_architect` performs zero socket operations and returns silently. -/
theorem c3_no_config_means_no_socket_ops
    (env : NotifyEnv) (b : SockBehavior) (state : String)
    (h : env.sessionId = Option.none ∨ env.sessionId = some "" ∨
         env.sockPath = Option.none ∨ env.sockPath = some "") :
    notify_architect env b state = ⟨[], Option.none⟩ := by
  rcases env with ⟨sid?, sp?⟩
  simp only at h
  rcases sid? with _ | sid
  · rfl
  · rcases sp? with _ | sp
    · rfl
    · rcases h with h | h | h | h
      · exact absurd h (by simp)
      · rw [Option.some.injEq] at h
        subst h
        simp [notify_architect]
      · exact absurd h (by simp)
      · rw [Option.some.injEq] at h
        subst h
        simp [notify_architect]

/-- Witness for C3 at a concrete input: session id unset. -/
theorem c3_no_config_means_no_socket_ops_witness :
    notify_architect ⟨Option.none, some "sock"⟩ SockBehavior.ok "done" =
      ⟨[], Option.none⟩ :=
  c3_no_config_means_no_socket_ops ⟨Option.none, some "sock"⟩ SockBehavior.ok
    "done" (Or.inl rfl)

/-- C4: when the session id parses as an integer `n` and the endpoint is
reachable (connect and write succeed), `notify_architect` performs
exactly create, connect to the configured path, one `sendall` of the
JSON serialization `{"session": n, "state": state}` followed by a single
trailing newline, and then closes the socket; the written line contains
exactly one newline, and no exception escapes. -/
theorem c4_reachable_socket_single_line
    (sid p state : String) (n : Int)
    (hn : pyInt sid = some n) (hp : ¬(p = "")) :
    notify_architect ⟨some sid, some p⟩ SockBehavior.ok state =
      ⟨[SockOp.create, SockOp.connect p,
        SockOp.send (dumpsSessionState n state ++ "\n"), SockOp.close],
       Option.none⟩
    ∧ (dumpsSessionState n state ++ "\n").data.count '\n' = 1 := by
  have hsid : ¬(sid = "") := by
    intro h
    subst h
    rw [pyInt_empty] at hn
    cases hn
  constructor
  · simp [notify_architect, notifyBody, hn, hsid, hp]
  · exact count_nl_message n state

/-- Witness for C4 at a concrete input: session id "7", path "s". -/
theorem c4_reachable_socket_single_line_witness :
    (notify_architect ⟨some "7", some "s"⟩ SockBehavior.ok "done" =
      ⟨[SockOp.create, SockOp.connect "s",
        SockOp.send (dumpsSessionState 7 "done" ++ "\n"), SockOp.close],
       Option.none⟩)
    ∧ (dumpsSessionState 7 "done" ++ "\n").data.count '\n' = 1 :=
  c4_reachable_socket_single_line "7" "s" "done" 7 rfl (by decide)

/-- C7 fails as stated: the Gemini adapter's exact standard output is
`json.dumps({"decision": "allow"})` plus `print`'s newline, which has a
space after the colon, so it is not byte-for-byte the claimed
`{"decision":"allow"}`.  Concrete run: one argument, non-JSON stdin,
subprocess completing normally. -/
theorem c7_counterexample_output_not_byte_exact :
    gemini_main ["done"] "not json" (SubOutcome.completes 0) =
      ⟨dumpsDecisionAllow ++ "\n", 0, true⟩
    ∧ ¬(dumpsDecisionAllow ++ "\n" = "\x7b\"decision\":\"allow\"\x7d") :=
  ⟨rfl, by decide⟩

/-- C7 amended: for every standard input, argument vector and subprocess
outcome (including a raising call), the Gemini adapter prints exactly
`{"decision": "allow"}` (with `json.dumps`'s default separator space)
followed by a newline, and exits with status 0. -/
theorem c7_amended_always_allow_exit_zero
    (args : List String) (stdin : String) (sub : SubOutcome) :
    (gemini_main args stdin sub).stdout = "\x7b\"decision\": \"allow\"\x7d\n"
    ∧ (gemini_main args stdin sub).exitCode = 0 := by
  rcases args with _ | ⟨a, rest⟩ <;> rcases sub with k | _ <;>
    exact ⟨rfl, rfl⟩

/-- C8 fails as stated: invoked with a present (but empty) command-line
argument and nonempty standard input, the flexible adapter still prints
usage and exits 1, although the claim requires exit 0 whenever the
argument is not absent. -/
theorem c8_counterexample_empty_argument_exits_one :
    ((archNotifyMain (fun _ => Option.none) [""] "x"
        ⟨Option.none, Option.none⟩ SockBehavior.ok false).exitCode = 1)
    ∧ ¬(([""] : List String) = [])
    ∧ ¬(("x" : String) = "") :=
  ⟨rfl, by decide, by decide⟩

/-- C8 amended: the flexible adapter prints usage and exits 1 exactly
when its selected raw input — the first command-line argument when one
is given, otherwise the standard-input content — is empty or whitespace
only; in every other case (including unmapped or unparseable payloads)
it exits 0 without printing usage. -/
theorem c8_amended_usage_iff_blank_selected_input
    (J : ParseFun) (args : List String) (stdin : String)
    (env : NotifyEnv) (b : SockBehavior) (t : Bool) :
    (pyStrip (selectedRawInput args stdin) = "" →
      archNotifyMain J args stdin env b t = ⟨1, true, false, []⟩)
    ∧ (¬(pyStrip (selectedRawInput args stdin) = "") →
      (archNotifyMain J args stdin env b t).exitCode = 0
      ∧ (archNotifyMain J args stdin env b t).usagePrinted = false) := by
  constructor
  · intro h
    simp [archNotifyMain, h]
  · intro h
    simp only [archNotifyMain]
    rw [if_neg h]
    split
    · exact ⟨rfl, rfl⟩
    · exact ⟨rfl, rfl⟩

/-- Witness for C8 amended: blank selected input (no argument, empty
stdin) gives usage and exit 1; a canonical argument gives exit 0. -/
theorem c8_amended_usage_iff_blank_selected_input_witness :
    (archNotifyMain (fun _ => Option.none) [] ""
        ⟨Option.none, Option.none⟩ SockBehavior.ok false =
      ⟨1, true, false, []⟩)
    ∧ ((archNotifyMain (fun _ => Option.none) ["start"] ""
        ⟨Option.none, Option.none⟩ SockBehavior.ok false).exitCode = 0) := by
  constructor
  · exact (c8_amended_usage_iff_blank_selected_input (fun _ => Option.none)
      [] "" ⟨Option.none, Option.none⟩ SockBehavior.ok false).1 (by decide)
  · exact ((c8_amended_usage_iff_blank_selected_input (fun _ => Option.none)
      ["start"] "" ⟨Option.none, Option.none⟩ SockBehavior.ok false).2
      (by decide)).1

/-- C9 fails as stated: `notify_architect` never calls `settimeout` (or
any other timeout-configuring operation), as this concrete reachable run
shows — its four operations include no timeout configuration. -/
theorem c9_counterexample_no_timeout_configured :
    ((notify_architect ⟨some "7", some "s"⟩ SockBehavior.ok "done").ops.filter
        isSettimeout = [])
    ∧ ((notify_architect ⟨some "7", some "s"⟩ SockBehavior.ok
        "done").ops.length = 4) :=
  ⟨rfl, rfl⟩

/-- C9 amended: no timeout is configured on the socket (the connect and
write run with blocking defaults), and against an endpoint whose connect
or write fails the operation still returns normally, because every
exception is swallowed. -/
theorem c9_amended_no_timeout_but_returns_normally
    (env : NotifyEnv) (b : SockBehavior) (state : String) :
    ((notify_architect env b state).ops.filter isSettimeout = [])
    ∧ (notify_architect env b state).exn = Option.none :=
  ⟨notify_no_settimeout env b state, notify_exn_none env b state⟩

/-! ## Classifier lemmas -/

theorem sfn_dict (J : ParseFun) (raw : String) (kvs : List (String × PyValue))
    (hne : ¬(pyStrip raw = ""))
    (hnc : VALID_STATES.contains (pyStrip raw) = false)
    (hJ : J (pyStrip raw) = some (.dict kvs)) :
    state_from_notification J raw = stateFromDict kvs := by
  simp only [state_from_notification]
  rw [if_neg hne, hnc, hJ]
  rfl

theorem stateFromDict_no_state_rule (kvs : List (String × PyValue))
    (h : stateRuleHit kvs = false) :
    stateFromDict kvs = stateFromStatus kvs := by
  unfold stateFromDict
  unfold stateRuleHit at h
  rcases hg : pyGet kvs "state" with _ | v
  · rfl
  · rw [hg] at h
    rcases v with _ | b | n | s | xs | kv
    · rfl
    · rfl
    · rfl
    · have h2 : VALID_STATES.contains s = false := h
      have hm : s ∉ VALID_STATES := by simpa using h2
      simp [hm]
    · rfl
    · rfl

theorem stateFromStatus_no_status_rule (kvs : List (String × PyValue))
    (h : statusRuleHit kvs = false) :
    stateFromStatus kvs = stateFromType kvs := by
  unfold stateFromStatus
  unfold statusRuleHit at h
  rcases hg : pyGet kvs "status" with _ | v
  · rfl
  · rw [hg] at h
    rcases v with _ | b | n | st | xs | kv
    · rfl
    · rfl
    · rfl
    · have h2 : (VALID_STATES.contains (pyLower st)
          || ["complete", "completed", "finished", "success"].contains (pyLower st)
          || strHasSub "approval" (pyLower st)
          || strHasSub "permission" (pyLower st)) = false := h
      rw [Bool.or_eq_false_iff, Bool.or_eq_false_iff, Bool.or_eq_false_iff] at h2
      obtain ⟨⟨⟨h1, h3⟩, h4⟩, h5⟩ := h2
      have hm1 : pyLower st ∉ VALID_STATES := by simpa using h1
      have hm3 : ¬(pyLower st = "complete" ∨ pyLower st = "completed"
          ∨ pyLower st = "finished" ∨ pyLower st = "success") := by simpa using h3
      simp [hm1, hm3, h4, h5]
    · rfl
    · rfl

theorem typeStringRules_canonical (nt : String)
    (h : VALID_STATES.contains nt = true) :
    typeStringRules nt = some nt := by
  have hne : ¬(nt = "") := by
    intro he
    subst he
    exact absurd h (by decide)
  have hm : nt ∈ VALID_STATES := by simpa using h
  simp [typeStringRules, hne, hm]

theorem typeStringRules_approval (nt : String)
    (h1 : VALID_STATES.contains nt = false)
    (h2 : (strHasSub "approval" nt || strHasSub "permission" nt
           || (strHasSub "input" nt && strHasSub "await" nt)) = true) :
    typeStringRules nt = some "awaiting_approval" := by
  have hne : ¬(nt = "") := by
    intro he
    subst he
    exact absurd h2 (by decide)
  have hm : nt ∉ VALID_STATES := by simpa using h1
  rcases (by simpa using h2 :
      (strHasSub "approval" nt = true ∨ strHasSub "permission" nt = true)
      ∨ (strHasSub "input" nt = true ∧ strHasSub "await" nt = true)) with
    (hA | hP) | ⟨hI, hW⟩
  · simp [typeStringRules, hne, hm, hA]
  · simp [typeStringRules, hne, hm, hP]
  · simp [typeStringRules, hne, hm, hI, hW]

theorem approvalCond_false_parts (nt : String)
    (h2 : (strHasSub "approval" nt || strHasSub "permission" nt
           || (strHasSub "input" nt && strHasSub "await" nt)) = false) :
    strHasSub "approval" nt = false ∧ strHasSub "permission" nt = false
    ∧ (strHasSub "input" nt = false ∨ strHasSub "await" nt = false) := by
  obtain ⟨⟨hA, hP⟩, hIW⟩ :
      (strHasSub "approval" nt = false ∧ strHasSub "permission" nt = false)
      ∧ (strHasSub "input" nt = true → strHasSub "await" nt = false) := by
    simpa using h2
  refine ⟨hA, hP, ?_⟩
  cases hI : strHasSub "input" nt
  · exact Or.inl rfl
  · exact Or.inr (hIW hI)

theorem typeStringRules_done (nt : String)
    (h1 : VALID_STATES.contains nt = false)
    (h2 : (strHasSub "approval" nt || strHasSub "permission" nt
           || (strHasSub "input" nt && strHasSub "await" nt)) = false)
    (h3 : (strHasSub "complete" nt || strEndsWithSuffix nt "-done") = true) :
    typeStringRules nt = some "done" := by
  have hne : ¬(nt = "") := by
    intro he
    subst he
    exact absurd h3 (by decide)
  have hm : nt ∉ VALID_STATES := by simpa using h1
  obtain ⟨hA, hP, hIW⟩ := approvalCond_false_parts nt h2
  rcases (by simpa using h3 :
      strHasSub "complete" nt = true ∨ strEndsWithSuffix nt "-done" = true) with
    hC | hE
  · rcases hIW with hX | hX <;> simp [typeStringRules, hne, hm, hA, hP, hX, hC]
  · rcases hIW with hX | hX <;> simp [typeStringRules, hne, hm, hA, hP, hX, hE]

theorem typeStringRules_start (nt : String)
    (h1 : VALID_STATES.contains nt = false)
    (h2 : (strHasSub "approval" nt || strHasSub "permission" nt
           || (strHasSub "input" nt && strHasSub "await" nt)) = false)
    (h3 : (strHasSub "complete" nt || strEndsWithSuffix nt "-done") = false)
    (h4 : (strHasSub "start" nt || strHasSub "begin" nt) = true) :
    typeStringRules nt = some "start" := by
  have hne : ¬(nt = "") := by
    intro he
    subst he
    exact absurd h4 (by decide)
  have hm : nt ∉ VALID_STATES := by simpa using h1
  obtain ⟨hA, hP, hIW⟩ := approvalCond_false_parts nt h2
  obtain ⟨hC, hE⟩ : strHasSub "complete" nt = false
      ∧ strEndsWithSuffix nt "-done" = false := by simpa using h3
  rcases (by simpa using h4 :
      strHasSub "start" nt = true ∨ strHasSub "begin" nt = true) with hS | hB
  · rcases hIW with hX | hX <;>
      simp [typeStringRules, hne, hm, hA, hP, hX, hC, hE, hS]
  · rcases hIW with hX | hX <;>
      simp [typeStringRules, hne, hm, hA, hP, hX, hC, hE, hB]

theorem typeStringRules_no_match (nt : String)
    (h1 : VALID_STATES.contains nt = false)
    (h2 : (strHasSub "approval" nt || strHasSub "permission" nt
           || (strHasSub "input" nt && strHasSub "await" nt)) = false)
    (h3 : (strHasSub "complete" nt || strEndsWithSuffix nt "-done") = false)
    (h4 : (strHasSub "start" nt || strHasSub "begin" nt) = false) :
    typeStringRules nt = Option.none := by
  by_cases hne : nt = ""
  · subst hne
    rfl
  · have hm : nt ∉ VALID_STATES := by simpa using h1
    obtain ⟨hA, hP, hIW⟩ := approvalCond_false_parts nt h2
    obtain ⟨hC, hE⟩ : strHasSub "complete" nt = false
        ∧ strEndsWithSuffix nt "-done" = false := by simpa using h3
    obtain ⟨hS, hB⟩ : strHasSub "start" nt = false
        ∧ strHasSub "begin" nt = false := by simpa using h4
    rcases hIW with hX | hX <;>
      simp [typeStringRules, hne, hm, hA, hP, hX, hC, hE, hS, hB]

theorem stateFromType_str (kvs : List (String × PyValue)) (t : String)
    (hty : pyGet kvs "type" = some (.str t)) :
    stateFromType kvs = typeStringRules (pyLower t) := by
  unfold stateFromType
  rw [hty]
  by_cases h : t = ""
  · subst h
    rfl
  · have ht : pyTruthy (.str t) = true := by simp [pyTruthy, h]
    simp [pyStr, ht]

theorem stateFromType_absent (kvs : List (String × PyValue))
    (hty : pyGet kvs "type" = Option.none) :
    stateFromType kvs = Option.none := by
  unfold stateFromType
  rw [hty]
  rfl

theorem stateFromType_value (kvs : List (String × PyValue)) (v : PyValue)
    (hty : pyGet kvs "type" = some v) :
    stateFromType kvs =
      typeStringRules (pyLower (pyStr (if pyTruthy v then v else .str ""))) := by
  unfold stateFromType
  rw [hty]

theorem typeStringRules_range (nt s : String)
    (h : typeStringRules nt = some s) :
    VALID_STATES.contains s = true := by
  unfold typeStringRules at h
  split_ifs at h with g1 g2 g3 g4 g5
  · injection h with h2
    subst h2
    exact g2
  · injection h with h2
    subst h2
    decide
  · injection h with h2
    subst h2
    decide
  · injection h with h2
    subst h2
    decide

theorem stateFromType_range (kvs : List (String × PyValue)) (s : String)
    (h : stateFromType kvs = some s) :
    VALID_STATES.contains s = true :=
  typeStringRules_range _ s h

theorem stateFromStatus_range (kvs : List (String × PyValue)) (s : String)
    (h : stateFromStatus kvs = some s) :
    VALID_STATES.contains s = true := by
  unfold stateFromStatus at h
  rcases hg : pyGet kvs "status" with _ | v
  · rw [hg] at h
    exact stateFromType_range kvs s h
  · rw [hg] at h
    rcases v with _ | b | n | st | xs | kv
    · exact stateFromType_range kvs s h
    · exact stateFromType_range kvs s h
    · exact stateFromType_range kvs s h
    · have h2 : (if VALID_STATES.contains (pyLower st) = true then
            some (pyLower st)
          else if (["complete", "completed", "finished",
              "success"].contains (pyLower st)) = true then some "done"
          else if (strHasSub "approval" (pyLower st)
              || strHasSub "permission" (pyLower st)) = true then
            some "awaiting_approval"
          else stateFromType kvs) = some s := h
      split_ifs at h2 with g1 g2 g3
      · injection h2 with h3
        subst h3
        exact g1
      · injection h2 with h3
        subst h3
        decide
      · injection h2 with h3
        subst h3
        decide
      · exact stateFromType_range kvs s h2
    · exact stateFromType_range kvs s h
    · exact stateFromType_range kvs s h

theorem stateFromDict_range (kvs : List (String × PyValue)) (s : String)
    (h : stateFromDict kvs = some s) :
    VALID_STATES.contains s = true := by
  unfold stateFromDict at h
  rcases hg : pyGet kvs "state" with _ | v
  · rw [hg] at h
    exact stateFromStatus_range kvs s h
  · rw [hg] at h
    rcases v with _ | b | n | t | xs | kv
    · exact stateFromStatus_range kvs s h
    · exact stateFromStatus_range kvs s h
    · exact stateFromStatus_range kvs s h
    · have h2 : (if VALID_STATES.contains t = true then some t
          else stateFromStatus kvs) = some s := h
      split_ifs at h2 with g1
      · injection h2 with h3
        subst h3
        exact g1
      · exact stateFromStatus_range kvs s h2
    · exact stateFromStatus_range kvs s h
    · exact stateFromStatus_range kvs s h

theorem sfn_range (J : ParseFun) (raw s : String)
    (h : state_from_notification J raw = some s) :
    VALID_STATES.contains s = true := by
  simp only [state_from_notification] at h
  by_cases h0 : pyStrip raw = ""
  · rw [if_pos h0] at h
    exact Option.noConfusion h
  · rw [if_neg h0] at h
    cases hc : VALID_STATES.contains (pyStrip raw)
    · rw [hc] at h
      simp only [Bool.false_eq_true, if_false] at h
      rcases hJ : J (pyStrip raw) with _ | v
      · rw [hJ] at h
        exact Option.noConfusion h
      · rw [hJ] at h
        rcases v with _ | b | n | t | xs | kv
        · exact Option.noConfusion h
        · exact Option.noConfusion h
        · exact Option.noConfusion h
        · exact Option.noConfusion h
        · exact Option.noConfusion h
        · exact stateFromDict_range kv s h
    · rw [hc] at h
      simp only [if_true] at h
      injection h with h2
      subst h2
      exact hc

theorem notify_send_shape (env : NotifyEnv) (b : SockBehavior) (st d : String)
    (h : SockOp.send d ∈ (notify_architect env b st).ops) :
    ∃ n, d = dumpsSessionState n st ++ "\n" := by
  rcases env with ⟨_ | sid, _ | sp⟩ <;> simp only [notify_architect] at h
  · exact absurd h (List.not_mem_nil _)
  · exact absurd h (List.not_mem_nil _)
  · exact absurd h (List.not_mem_nil _)
  · split at h
    · exact absurd h (List.not_mem_nil _)
    · unfold notifyBody at h
      rcases hp : pyInt sid with _ | n
      · rw [hp] at h
        exact absurd h (List.not_mem_nil _)
      · rw [hp] at h
        refine ⟨n, ?_⟩
        cases b <;> simp_all

theorem notify_send_count (env : NotifyEnv) (b : SockBehavior) (st : String) :
    ((notify_architect env b st).ops.filter isSend).length ≤ 1 := by
  rcases env with ⟨_ | sid, _ | sp⟩ <;> simp only [notify_architect]
  · decide
  · decide
  · decide
  · split
    · decide
    · unfold notifyBody
      rcases hp : pyInt sid with _ | n
      · simp
    
      · simp only []
        cases b <;> simp [isSend]

theorem archMain_trace (J : ParseFun) (args : List String) (stdin : String)
    (env : NotifyEnv) (b : SockBehavior) (t : Bool) :
    (archNotifyMain J args stdin env b t).trace = []
    ∨ ∃ st, state_from_notification J (selectedRawInput args stdin) = some st
        ∧ (archNotifyMain J args stdin env b t).trace =
            (notify_architect env b st).ops := by
  simp only [archNotifyMain]
  split
  · exact Or.inl rfl
  · rcases hs : state_from_notification J (selectedRawInput args stdin) with _ | st
    · exact Or.inl rfl
    · exact Or.inr ⟨st, rfl, rfl⟩

/-! ## Claims about the classifier -/

/-- C5: on a payload that parses to a dict, a string `state` field equal
to a canonical name wins outright; otherwise a string `status` field is
resolved case-insensitively — exact canonical match, then the four done
synonyms, then an "approval"/"permission" substring — all before any
`type` rule is consulted (the conclusions hold whatever the `type` field
is). -/
theorem c5_state_then_status_priority
    (J : ParseFun) (raw : String) (kvs : List (String × PyValue))
    (hne : ¬(pyStrip raw = ""))
    (hnc : VALID_STATES.contains (pyStrip raw) = false)
    (hJ : J (pyStrip raw) = some (.dict kvs)) :
    (∀ s, pyGet kvs "state" = some (.str s) → VALID_STATES.contains s = true →
        state_from_notification J raw = some s)
    ∧ (stateRuleHit kvs = false →
       ∀ st, pyGet kvs "status" = some (.str st) →
         ((VALID_STATES.contains (pyLower st) = true →
             state_from_notification J raw = some (pyLower st))
          ∧ (VALID_STATES.contains (pyLower st) = false →
             (["complete", "completed", "finished",
                "success"].contains (pyLower st)) = true →
             state_from_notification J raw = some "done")
          ∧ (VALID_STATES.contains (pyLower st) = false →
             (["complete", "completed", "finished",
                "success"].contains (pyLower st)) = false →
             (strHasSub "approval" (pyLower st)
              || strHasSub "permission" (pyLower st)) = true →
             state_from_notification J raw = some "awaiting_approval"))) := by
  have hd := sfn_dict J raw kvs hne hnc hJ
  constructor
  · intro s hs hval
    rw [hd]
    unfold stateFromDict
    rw [hs]
    have hm : s ∈ VALID_STATES := by simpa using hval
    simp [hm]
  · intro hsr st hst
    have e1 := stateFromDict_no_state_rule kvs hsr
    refine ⟨?_, ?_, ?_⟩
    · intro hval
      rw [hd, e1]
      unfold stateFromStatus
      rw [hst]
      have hm : pyLower st ∈ VALID_STATES := by simpa using hval
      simp [hm]
    · intro hval hsyn
      rw [hd, e1]
      unfold stateFromStatus
      rw [hst]
      have hm : pyLower st ∉ VALID_STATES := by simpa using hval
      have hs2 : pyLower st = "complete" ∨ pyLower st = "completed"
          ∨ pyLower st = "finished" ∨ pyLower st = "success" := by
        simpa using hsyn
      simp [hm, hs2]
    · intro hval hsyn hap
      rw [hd, e1]
      unfold stateFromStatus
      rw [hst]
      have hm : pyLower st ∉ VALID_STATES := by simpa using hval
      have hs2 : ¬(pyLower st = "complete" ∨ pyLower st = "completed"
          ∨ pyLower st = "finished" ∨ pyLower st = "success") := by
        simpa using hsyn
      rcases (by simpa using hap :
          strHasSub "approval" (pyLower st) = true
          ∨ strHasSub "permission" (pyLower st) = true) with hA | hP
      · simp [hm, hs2, hA]
      · simp [hm, hs2, hP]

/-- Witness for C5: `{"status": "Completed"}` classifies as done via the
done-synonym rule. -/
theorem c5_state_then_status_priority_witness :
    state_from_notification
      (fun _ => some (.dict [("status", PyValue.str "Completed")]))
      "payload" = some "done" :=
  ((c5_state_then_status_priority
      (fun _ => some (.dict [("status", PyValue.str "Completed")]))
      "payload" [("status", PyValue.str "Completed")]
      (by decide) rfl rfl).2 rfl "Completed" rfl).2.1 rfl rfl

/-- C6: on payloads where neither the `state` rule nor any `status` rule
fires, a string `type` field is resolved case-insensitively in priority
order (canonical match; "approval"/"permission" or "input"+"await";
"complete" or trailing "-done"; "start" or "begin"); and the result is
`None` on blank input, unparseable input, non-dict payloads, a dict
whose `type` matches no rule, and a dict with no `type` field at all. -/
theorem c6_type_rules_and_none_cases (J : ParseFun) (raw : String) :
    (pyStrip raw = "" → state_from_notification J raw = Option.none)
    ∧ (¬(pyStrip raw = "") → VALID_STATES.contains (pyStrip raw) = false →
       J (pyStrip raw) = Option.none →
       state_from_notification J raw = Option.none)
    ∧ (∀ v, ¬(pyStrip raw = "") → VALID_STATES.contains (pyStrip raw) = false →
       J (pyStrip raw) = some v → v.isDict = false →
       state_from_notification J raw = Option.none)
    ∧ (∀ kvs t, ¬(pyStrip raw = "") →
       VALID_STATES.contains (pyStrip raw) = false →
       J (pyStrip raw) = some (.dict kvs) →
       stateRuleHit kvs = false → statusRuleHit kvs = false →
       pyGet kvs "type" = some (.str t) →
       ((VALID_STATES.contains (pyLower t) = true →
           state_from_notification J raw = some (pyLower t))
        ∧ (VALID_STATES.contains (pyLower t) = false →
           (strHasSub "approval" (pyLower t) || strHasSub "permission" (pyLower t)
            || (strHasSub "input" (pyLower t) && strHasSub "await" (pyLower t)))
             = true →
           state_from_notification J raw = some "awaiting_approval")
        ∧ (VALID_STATES.contains (pyLower t) = false →
           (strHasSub "approval" (pyLower t) || strHasSub "permission" (pyLower t)
            || (strHasSub "input" (pyLower t) && strHasSub "await" (pyLower t)))
             = false →
           (strHasSub "complete" (pyLower t)
            || strEndsWithSuffix (pyLower t) "-done") = true →
           state_from_notification J raw = some "done")
        ∧ (VALID_STATES.contains (pyLower t) = false →
           (strHasSub "approval" (pyLower t) || strHasSub "permission" (pyLower t)
            || (strHasSub "input" (pyLower t) && strHasSub "await" (pyLower t)))
             = false →
           (strHasSub "complete" (pyLower t)
            || strEndsWithSuffix (pyLower t) "-done") = false →
           (strHasSub "start" (pyLower t) || strHasSub "begin" (pyLower t))
             = true →
           state_from_notification J raw = some "start")
        ∧ (VALID_STATES.contains (pyLower t) = false →
           (strHasSub "approval" (pyLower t) || strHasSub "permission" (pyLower t)
            || (strHasSub "input" (pyLower t) && strHasSub "await" (pyLower t)))
             = false →
           (strHasSub "complete" (pyLower t)
            || strEndsWithSuffix (pyLower t) "-done") = false →
           (strHasSub "start" (pyLower t) || strHasSub "begin" (pyLower t))
             = false →
           state_from_notification J raw = Option.none)))
    ∧ (∀ kvs, ¬(pyStrip raw = "") →
       VALID_STATES.contains (pyStrip raw) = false →
       J (pyStrip raw) = some (.dict kvs) →
       stateRuleHit kvs = false → statusRuleHit kvs = false →
       pyGet kvs "type" = Option.none →
       state_from_notification J raw = Option.none) := by
  refine ⟨?_, ?_, ?_, ?_, ?_⟩
  · intro h0
    simp only [state_from_notification]
    rw [if_pos h0]
  · intro hne hnc hJ
    simp only [state_from_notification]
    rw [if_neg hne, hnc, hJ]
    rfl
  · intro v hne hnc hJ hv
    simp only [state_from_notification]
    rw [if_neg hne, hnc, hJ]
    rcases v with _ | b | n | t | xs | kv
    · rfl
    · rfl
    · rfl
    · rfl
    · rfl
    · exact Bool.noConfusion hv
  · intro kvs t hne hnc hJ hsr hss hty
    have key : state_from_notification J raw = typeStringRules (pyLower t) := by
      rw [sfn_dict J raw kvs hne hnc hJ, stateFromDict_no_state_rule kvs hsr,
          stateFromStatus_no_status_rule kvs hss, stateFromType_str kvs t hty]
    refine ⟨?_, ?_, ?_, ?_, ?_⟩
    · intro g1
      rw [key]
      exact typeStringRules_canonical (pyLower t) g1
    · intro g1 g2
      rw [key]
      exact typeStringRules_approval (pyLower t) g1 g2
    · intro g1 g2 g3
      rw [key]
      exact typeStringRules_done (pyLower t) g1 g2 g3
    · intro g1 g2 g3 g4
      rw [key]
      exact typeStringRules_start (pyLower t) g1 g2 g3 g4
    · intro g1 g2 g3 g4
      rw [key]
      exact typeStringRules_no_match (pyLower t) g1 g2 g3 g4
  · intro kvs hne hnc hJ hsr hss hty
    rw [sfn_dict J raw kvs hne hnc hJ, stateFromDict_no_state_rule kvs hsr,
        stateFromStatus_no_status_rule kvs hss]
    exact stateFromType_absent kvs hty

/-- Witness for C6: `{"type": "agent-turn-complete"}` classifies as done
via the "complete" substring rule. -/
theorem c6_type_rules_and_none_cases_witness :
    state_from_notification
      (fun _ => some (.dict [("type", PyValue.str "agent-turn-complete")]))
      "payload" = some "done" :=
  ((c6_type_rules_and_none_cases
      (fun _ => some (.dict [("type", PyValue.str "agent-turn-complete")]))
      "payload").2.2.2.1 [("type", PyValue.str "agent-turn-complete")]
      "agent-turn-complete" (by decide) rfl rfl rfl rfl rfl).2.2.1 rfl rfl rfl

/-- C10: on a dict payload past the `state` and `status` rules whose
`type` field holds a non-string value `v`, the code applies the
substring rules to the lowercased Python rendering `str(v)` when `v` is
truthy, and yields `None` when `v` is falsy (null, false, 0, "", empty
containers). -/
theorem c10_nonstring_type_rendered
    (J : ParseFun) (raw : String) (kvs : List (String × PyValue)) (v : PyValue)
    (hne : ¬(pyStrip raw = ""))
    (hnc : VALID_STATES.contains (pyStrip raw) = false)
    (hJ : J (pyStrip raw) = some (.dict kvs))
    (hsr : stateRuleHit kvs = false)
    (hss : statusRuleHit kvs = false)
    (hty : pyGet kvs "type" = some v)
    (_hvs : v.isStr = false) :
    (pyTruthy v = true →
      state_from_notification J raw = typeStringRules (pyLower (pyStr v)))
    ∧ (pyTruthy v = false →
      state_from_notification J raw = Option.none) := by
  have key : state_from_notification J raw =
      typeStringRules (pyLower (pyStr (if pyTruthy v then v else .str ""))) := by
    rw [sfn_dict J raw kvs hne hnc hJ, stateFromDict_no_state_rule kvs hsr,
        stateFromStatus_no_status_rule kvs hss, stateFromType_value kvs v hty]
  constructor
  · intro ht
    rw [key, if_pos ht]
  · intro ht
    rw [key, if_neg (by simp [ht])]
    rfl

/-- Witness for C10: a `type` field holding the list `["task-start"]`
renders as `['task-start']` and classifies as start. -/
theorem c10_nonstring_type_rendered_witness :
    state_from_notification
      (fun _ => some (.dict [("type", PyValue.list [PyValue.str "task-start"])]))
      "payload" = some "start" := by
  have h := (c10_nonstring_type_rendered
      (fun _ => some (.dict [("type", PyValue.list [PyValue.str "task-start"])]))
      "payload" [("type", PyValue.list [PyValue.str "task-start"])]
      (PyValue.list [PyValue.str "task-start"])
      (by decide) rfl rfl rfl rfl rfl rfl).1 rfl
  rw [h]
  rfl

/-- C2: only canonical states go on the wire.  (i) Every state the
classifier returns is canonical; (ii) each of the three canonical names
is attained (for any parser, since a bare state name never reaches the
parser); (iii) every `sendall` the flexible-payload `__main__` adapter
performs carries the JSON line for a canonical state; (iv) at most one
message is sent per invocation. -/
theorem c2_only_canonical_states_sent :
    (∀ (J : ParseFun) (raw s : String),
        state_from_notification J raw = some s →
        VALID_STATES.contains s = true)
    ∧ (∀ s, VALID_STATES.contains s = true → ∀ J : ParseFun,
        ∃ raw, state_from_notification J raw = some s)
    ∧ (∀ (J : ParseFun) (args : List String) (stdin : String)
        (env : NotifyEnv) (b : SockBehavior) (t : Bool) (d : String),
        SockOp.send d ∈ (archNotifyMain J args stdin env b t).trace →
        ∃ n st, VALID_STATES.contains st = true
          ∧ d = dumpsSessionState n st ++ "\n")
    ∧ (∀ (J : ParseFun) (args : List String) (stdin : String)
        (env : NotifyEnv) (b : SockBehavior) (t : Bool),
        ((archNotifyMain J args stdin env b t).trace.filter isSend).length
          ≤ 1) := by
  refine ⟨sfn_range, ?_, ?_, ?_⟩
  · intro s hs J
    have hmem : s = "start" ∨ s = "awaiting_approval" ∨ s = "done" := by
      simpa [VALID_STATES] using hs
    rcases hmem with rfl | rfl | rfl
    · exact ⟨"start", rfl⟩
    · exact ⟨"awaiting_approval", rfl⟩
    · exact ⟨"done", rfl⟩
  · intro J args stdin env b t d hd
    rcases archMain_trace J args stdin env b t with h | ⟨st, hst, h⟩
    · rw [h] at hd
      exact absurd hd (List.not_mem_nil _)
    · rw [h] at hd
      obtain ⟨n, hn⟩ := notify_send_shape env b st d hd
      exact ⟨n, st, sfn_range J _ st hst, hn⟩
  · intro J args stdin env b t
    rcases archMain_trace J args stdin env b t with h | ⟨st, _, h⟩
    · rw [h]
      decide
    · rw [h]
      exact notify_send_count env b st

/-- Witness for C2: the classifier maps "start" to a canonical state,
and the concrete send performed with session id "7" and argument
"start" carries a canonical-state JSON line. -/
theorem c2_only_canonical_states_sent_witness :
    (VALID_STATES.contains "start" = true)
    ∧ ∃ n st, VALID_STATES.contains st = true
        ∧ dumpsSessionState 7 "start" ++ "\n" = dumpsSessionState n st ++ "\n" := by
  constructor
  · exact c2_only_canonical_states_sent.1 (fun _ => Option.none) "start" "start" rfl
  · refine c2_only_canonical_states_sent.2.2.1 (fun _ => Option.none) ["start"]
      "" ⟨some "7", some "s"⟩ SockBehavior.ok false
      (dumpsSessionState 7 "start" ++ "\n") ?_
    show SockOp.send (dumpsSessionState 7 "start" ++ "\n") ∈
      [SockOp.create, SockOp.connect "s",
       SockOp.send (dumpsSessionState 7 "start" ++ "\n"), SockOp.close]
    exact List.Mem.tail _ (List.Mem.tail _ (List.Mem.head _))
